import Mathlib

/-
Verification development for the `display.h` single-header formatted-output
library.  The C source is shallowly embedded below:

* C strings are modelled as memories `Mem := Nat → Char`: the string's
  characters occupy the low addresses, followed by the NUL terminator;
  whatever the function reads beyond that is whatever the memory holds.
  A well-formed template `t : List Char` is placed in memory by `memOf`,
  which fills everything at and past `t.length` with NUL.
* `strchr(set, c) != NULL` is `cstrchr`: true iff `c` occurs in `set` or
  `c` is the NUL terminator (the terminator is part of the searched string
  in C, a fact the scanner's loops depend on).
* The variadic argument cursor is a `List CVal`, consumed from the front
  exactly where the C code executes `va_arg`.
* The native formatting performed by `printf`/`fprintf` on a single
  conversion substring is an oracle parameter `Fmt`; the driver passes the
  captured substring and the consumed argument to it and appends whatever
  text it yields, mirroring the fact that the C code hands the substring
  to `printf` and ignores its return value.
* `display_fn` / `fdisplay_fn` function pointers are modelled by their
  observable behaviour on the one call the driver makes: the text they
  write to the active sink and the `int` they return; an absent pointer is
  `none`.
* Loops are fuel-indexed; `none` means the fuel ran out, i.e. the modelled
  execution did not reach a normal return within that many steps.
-/

namespace Display

/-- The NUL terminator of C strings. -/
def nulChar : Char := Char.ofNat 0

/-- Memory holding a C string starting at address 0. -/
abbrev Mem := Nat → Char

/-- Read character `i` of a well-formed template: characters of `t`, then
NUL at and beyond `t.length`. -/
def getC (t : List Char) (i : Nat) : Char := t.getD i nulChar

/-- The memory image of a well-formed template: the template's characters,
its NUL terminator, and NUL for every byte past the allocation as well. -/
def memOf (t : List Char) : Mem := fun i => getC t i

/-- Models `strchr(s, c) != NULL`: the terminating NUL is considered part
of the searched string, so `c = '\0'` always matches. -/
def cstrchr (s : List Char) (c : Char) : Bool := s.contains c || c == nulChar

/-- Models `isdigit` (C locale). -/
def cIsDigit (c : Char) : Bool := '0' ≤ c && c ≤ '9'

/-- Models `strlen` on a stored character buffer: length up to the first
embedded NUL. -/
def cstrlen (s : List Char) : Nat := (s.takeWhile (fun c => c != nulChar)).length

/-- The `var_type` enumeration (display.h lines 115-155). -/
inductive var_type
  | TYPE_FLOAT
  | TYPE_DOUBLE
  | TYPE_LONG_DOUBLE
  | TYPE_POINTER
  | TYPE_STRING
  | TYPE_POINTER_SIGNED_INT8
  | TYPE_POINTER_SHORT
  | TYPE_POINTER_INT
  | TYPE_POINTER_LONG
  | TYPE_POINTER_LONG_LONG
  | TYPE_POINTER_INTMAX_T
  | TYPE_POINTER_SSIZE_T
  | TYPE_POINTER_PTRDIFF_T
  | TYPE_SIGNED_INT8
  | TYPE_SHORT
  | TYPE_INT
  | TYPE_LONG
  | TYPE_LONG_LONG
  | TYPE_INTMAX_T
  | TYPE_SSIZE_T
  | TYPE_PTRDIFF_T
  | TYPE_UINT8
  | TYPE_USHORT
  | TYPE_UINT
  | TYPE_ULONG
  | TYPE_ULONG_LONG
  | TYPE_UINTMAX_T
  | TYPE_SIZE_T
  | TYPE_NONE
deriving DecidableEq, Repr

/-- One scanner entry: `struct format_spec_t` (display.h lines 157-161). -/
structure format_spec_t where
  substr : List Char
  type : var_type
deriving DecidableEq, Repr

/-- Flags loop (display.h lines 193-196): `while (strchr("-+ #0", *p)) p++`.
Fuel-indexed because under `strchr`'s NUL-matching this loop can run
forever on a memory that is NUL from some point on. -/
def scanFlags : Nat → Mem → Nat → Option Nat
  | 0, _, _ => none
  | f + 1, mem, pos =>
    if cstrchr ("-+ #0".toList) (mem pos) then scanFlags f mem (pos + 1) else some pos

/-- Digit run (display.h lines 202-204 and 213-215): `while (isdigit(*p)) p++`. -/
def scanDigits : Nat → Mem → Nat → Option Nat
  | 0, _, _ => none
  | f + 1, mem, pos =>
    if cIsDigit (mem pos) then scanDigits f mem (pos + 1) else some pos

/-- Length-modifier consumption (display.h lines 219-229).  Returns the
`length` buffer contents and the new position.  Note the source condition
`(*p == 'h' || *p == 'l') && (length[0] == 'h' || length[0] == 'l')`: it
does not require the two characters to be equal. -/
def parseLength (mem : Mem) (p : Nat) : List Char × Nat :=
  if cstrchr ("hljztL".toList) (mem p) then
    let c0 := mem p
    if (mem (p + 1) == 'h' || mem (p + 1) == 'l') && (c0 == 'h' || c0 == 'l') then
      ([c0, mem (p + 1)], p + 2)
    else
      ([c0], p + 1)
  else
    ([], p)

/-- Type resolution (display.h lines 250-326).  `length` is the raw
`char length[3]` buffer; `strcmp` sees only its content up to the first
NUL, hence the `takeWhile`.  Returns `none` for the `-1` sentinel the C
code initializes `type` with (unreachable for accepted specifiers). -/
def resolveType (specifier : Char) (length : List Char) : Option var_type :=
  let len := length.takeWhile (fun c => c != nulChar)
  if specifier == '%' then some .TYPE_NONE
  else if specifier == 'p' then some .TYPE_POINTER
  else if specifier == 'c' then some .TYPE_INT
  else if specifier == 's' then some .TYPE_STRING
  else if specifier == 'n' then
    some (if len = "hh".toList then .TYPE_POINTER_SIGNED_INT8
      else if len = "h".toList then .TYPE_POINTER_SHORT
      else if len = [] then .TYPE_POINTER_INT
      else if len = "l".toList then .TYPE_POINTER_LONG
      else if len = "ll".toList then .TYPE_POINTER_LONG_LONG
      else if len = "j".toList then .TYPE_POINTER_INTMAX_T
      else if len = "z".toList then .TYPE_POINTER_SSIZE_T
      else if len = "t".toList then .TYPE_POINTER_PTRDIFF_T
      else .TYPE_POINTER_INT)
  else if cstrchr ("di".toList) specifier then
    some (if len = "hh".toList then .TYPE_SIGNED_INT8
      else if len = "h".toList then .TYPE_SHORT
      else if len = [] then .TYPE_INT
      else if len = "l".toList then .TYPE_LONG
      else if len = "ll".toList then .TYPE_LONG_LONG
      else if len = "j".toList then .TYPE_INTMAX_T
      else if len = "z".toList then .TYPE_SSIZE_T
      else if len = "t".toList then .TYPE_PTRDIFF_T
      else .TYPE_INT)
  else if cstrchr ("ouxX".toList) specifier then
    some (if len = "hh".toList then .TYPE_UINT8
      else if len = "h".toList then .TYPE_USHORT
      else if len = [] then .TYPE_UINT
      else if len = "l".toList then .TYPE_ULONG
      else if len = "ll".toList then .TYPE_ULONG_LONG
      else if len = "j".toList then .TYPE_UINTMAX_T
      else if len = "z".toList then .TYPE_SIZE_T
      else if len = "t".toList then .TYPE_PTRDIFF_T
      else .TYPE_UINT)
  else if cstrchr ("eEfFgGaA".toList) specifier then
    some (if len = "L".toList then .TYPE_LONG_DOUBLE else .TYPE_DOUBLE)
  else none

/-- Parse one conversion marker whose `'%'` sits at position `s`
(display.h lines 189-341).  Returns the position the scan continues from
and the entry to record, if any (`none` for a dropped malformed marker).
The substring is the raw bytes `mem s .. mem (newPos - 1)` that `strncpy`
copies. -/
def parseMarker (f : Nat) (mem : Mem) (s : Nat) : Option (Nat × Option format_spec_t) := do
  let p0 := s + 1
  let p1 ← scanFlags f mem p0
  let p2 ← if mem p1 == '*' then pure (p1 + 1) else scanDigits f mem p1
  let p3 ←
    if mem p2 == '.' then
      if mem (p2 + 1) == '*' then pure (p2 + 2) else scanDigits f mem (p2 + 1)
    else
      pure p2
  let lp := parseLength mem p3
  let specifier := mem lp.2
  if cstrchr ("diouxXeEfFgGaAcspn%".toList) specifier then
    let p5 := lp.2 + 1
    let sub := (List.range (p5 - s)).map (fun i => mem (s + i))
    match resolveType specifier lp.1 with
    | some ty => pure (p5, some ⟨sub, ty⟩)
    | none => pure (p5, none)
  else
    -- invalid specifier: `continue` with the position unchanged
    pure (lp.2, none)

/-- Outer scanner loop (display.h lines 181-345). -/
def scanLoop : Nat → Mem → Nat → List format_spec_t → Option (List format_spec_t)
  | 0, _, _, _ => none
  | f + 1, mem, pos, acc =>
    if mem pos == nulChar then some acc
    else if mem pos == '%' then
      if mem (pos + 1) == '%' then scanLoop f mem (pos + 2) acc
      else
        match parseMarker f mem pos with
        | none => none
        | some (pos', none) => scanLoop f mem pos' acc
        | some (pos', some e) => scanLoop f mem pos' (acc ++ [e])
    else scanLoop f mem (pos + 1) acc

/-- `find_format_specifiers` (display.h lines 176-348).  The argument is
the `const char *format` pointer: `none` is the null pointer, which the
function dereferences on its first step (`while (*p)`), so a null argument
has no normal return and is modelled as `none`. -/
def find_format_specifiers (fuel : Nat) (format : Option Mem) : Option (List format_spec_t) :=
  match format with
  | none => none
  | some mem => scanLoop fuel mem 0 []

/-- Model of `struct display_t` (display.h lines 60-66).  Each function
pointer is modelled by its observable behaviour on the single call the
driver makes: `some (text, ret)` is a present pointer whose invocation
writes `text` to its sink and returns `ret`; `none` is a null pointer.
`self` records whether the `self` field is non-null. -/
structure display_t where
  display_fn : Option (List Char × Int)
  fdisplay_fn : Option (List Char × Int)
  sndisplay_fn : Option (List Char × Int)
  self : Bool
deriving DecidableEq, Repr

/-- One slot of the variadic argument cursor.  The driver reads slots with
`va_arg` at various C types; the model keeps the caller's intent per slot
and lets the formatting oracle interpret it (native numeric and pointer
arguments are not distinguished beyond this, since the C code passes them
opaquely to `printf`). -/
inductive CVal
  | VInt (n : Int)
  | VStr (s : List Char)
  | VPtr (id : Nat)
  | VDisp (d : Option display_t)
deriving DecidableEq, Repr

/-- The native-formatting oracle: the text `printf`/`fprintf` writes for
one conversion substring and the one argument the driver passes with it.
The C code ignores `printf`'s return value, so only the text matters. -/
abbrev Fmt := List Char → CVal → List Char

/-- Models `va_arg` for a native argument slot.  Reading past the end of
the caller's argument list is undefined behaviour in C; the model yields
an arbitrary junk value there (never exercised by the theorems below). -/
def vaArg : List CVal → CVal × List CVal
  | [] => (.VInt 0, [])
  | a :: r => (a, r)

/-- Models `va_arg(args, display_t *)`.  A slot that is not a display
pointer, or an exhausted cursor, is undefined behaviour in C; the model
reads it as a null display pointer (never exercised by the theorems
below). -/
def vaDisp : List CVal → Option display_t × List CVal
  | [] => (none, [])
  | .VDisp d :: r => (d, r)
  | _ :: r => (none, r)

/-- Driver loop state: template position `p`, marker-list index `specIdx`,
the two counters `spec_count` and `struct_count`, the text written to the
active sink so far, the `%n`-style writebacks performed so far (argument
slot written through, value stored), and the remaining argument cursor. -/
structure VState where
  p : Nat
  specIdx : Nat
  specCount : Nat
  structCount : Nat
  out : List Char
  writes : List (CVal × Nat)
  args : List CVal
deriving DecidableEq, Repr

/-- Result of a driver call: sink text, `%n` writebacks, the returned
`int`, and the argument slots left unconsumed. -/
structure VResult where
  out : List Char
  writes : List (CVal × Nat)
  ret : Int
  rest : List CVal
deriving DecidableEq, Repr

/-- One driver-loop step either leaves the loop with a result or continues
with a new state. -/
inductive StepRes
  | halt (r : VResult)
  | next (s : VState)
deriving DecidableEq, Repr

/-- One iteration of the `display_vprint` while-loop (display.h lines
359-488), including the loop condition `while (*p)`:  a NUL at the current
position leaves the loop and returns `spec_count + struct_count`. -/
def vprint_step (fmt : Fmt) (t : List Char) (specs : List format_spec_t) (st : VState) :
    StepRes :=
  if getC t st.p = nulChar then
    .halt ⟨st.out, st.writes, ((st.specCount + st.structCount : Nat) : Int), st.args⟩
  else if getC t st.p = '%' ∧ getC t (st.p + 1) ≠ '%' then
    if h : st.specIdx < specs.length then
      let e := specs.get ⟨st.specIdx, h⟩
      let va := vaArg st.args
      -- the switch on the entry's type (lines 362-459)
      let acted : List Char × List (CVal × Nat) × List CVal :=
        match e.type with
        | .TYPE_NONE => (st.out, st.writes, st.args)
        | .TYPE_POINTER_INT | .TYPE_POINTER_SIGNED_INT8 | .TYPE_POINTER_SHORT
        | .TYPE_POINTER_LONG | .TYPE_POINTER_LONG_LONG | .TYPE_POINTER_INTMAX_T
        | .TYPE_POINTER_SSIZE_T | .TYPE_POINTER_PTRDIFF_T =>
          -- `*va_arg(args, ...) = spec_count + struct_count;`
          (st.out, st.writes ++ [(va.1, st.specCount + st.structCount)], va.2)
        | _ =>
          -- every remaining case: `printf(specs.data[spec_idx].substr, va_arg(...))`
          (st.out ++ fmt e.substr va.1, st.writes, va.2)
      -- lines 460-462: advance past the substring, bump index and count
      .next ⟨st.p + cstrlen e.substr, st.specIdx + 1, st.specCount + 1, st.structCount,
        acted.1, acted.2.1, acted.2.2⟩
    else
      -- marker list exhausted: `putchar(*p); p++;`
      .next ⟨st.p + 1, st.specIdx, st.specCount, st.structCount,
        st.out ++ [getC t st.p], st.writes, st.args⟩
  else if getC t st.p = '%' ∧ getC t (st.p + 1) = '%' then
    .next ⟨st.p + 2, st.specIdx, st.specCount, st.structCount,
      st.out ++ ['%'], st.writes, st.args⟩
  else if getC t st.p = '{' ∧ getC t (st.p + 1) = '}' then
    let vd := vaDisp st.args
    match vd.1 with
    | none =>
      -- `!d`: invalid pointer, skip
      .next ⟨st.p + 2, st.specIdx, st.specCount, st.structCount, st.out, st.writes, vd.2⟩
    | some d =>
      match d.display_fn, d.self with
      | none, _ =>
        -- `!d->display_fn`: skip without calling
        .next ⟨st.p + 2, st.specIdx, st.specCount, st.structCount, st.out, st.writes, vd.2⟩
      | some _, false =>
        -- `!d->self`: skip without calling
        .next ⟨st.p + 2, st.specIdx, st.specCount, st.structCount, st.out, st.writes, vd.2⟩
      | some (txt, ret), true =>
        -- `d->display_fn(d->self)` runs (its writes reach the sink), then
        -- its return value is compared with -1
        if ret = -1 then
          .next ⟨st.p + 2, st.specIdx, st.specCount, st.structCount,
            st.out ++ txt, st.writes, vd.2⟩
        else
          .next ⟨st.p + 2, st.specIdx, st.specCount, st.structCount + 1,
            st.out ++ txt, st.writes, vd.2⟩
  else
    .next ⟨st.p + 1, st.specIdx, st.specCount, st.structCount,
      st.out ++ [getC t st.p], st.writes, st.args⟩

/-- The `display_vprint` while-loop, fuel-indexed. -/
def vprint_loop (fmt : Fmt) (t : List Char) (specs : List format_spec_t) :
    Nat → VState → Option VResult
  | 0, _ => none
  | f + 1, st =>
    match vprint_step fmt t specs st with
    | .halt r => some r
    | .next st' => vprint_loop fmt t specs f st'

/-- `display_vprint` (display.h lines 350-493).  A `none` template is the
null pointer, rejected up front with `-1` and no side effects; otherwise
the scanner runs once and the loop consumes the template.  (The C code
frees the marker list before returning; allocation is not modelled.) -/
def display_vprint (fuel : Nat) (fmt : Fmt) (format : Option (List Char))
    (args : List CVal) : Option VResult :=
  match format with
  | none => some ⟨[], [], -1, args⟩
  | some t =>
    match find_format_specifiers fuel (some (memOf t)) with
    | none => none
    | some specs => vprint_loop fmt t specs fuel ⟨0, 0, 0, 0, [], [], args⟩

/-- One iteration of the `display_vfprint` while-loop (display.h lines
530-664).  Identical to `vprint_step` except that the opaque-display
branch consults and invokes `fdisplay_fn` (passing the stream handle). -/
def vfprint_step (fmt : Fmt) (t : List Char) (specs : List format_spec_t) (st : VState) :
    StepRes :=
  if getC t st.p = nulChar then
    .halt ⟨st.out, st.writes, ((st.specCount + st.structCount : Nat) : Int), st.args⟩
  else if getC t st.p = '%' ∧ getC t (st.p + 1) ≠ '%' then
    if h : st.specIdx < specs.length then
      let e := specs.get ⟨st.specIdx, h⟩
      let va := vaArg st.args
      -- the switch on the entry's type (lines 533-635)
      let acted : List Char × List (CVal × Nat) × List CVal :=
        match e.type with
        | .TYPE_NONE => (st.out, st.writes, st.args)
        | .TYPE_POINTER_INT | .TYPE_POINTER_SIGNED_INT8 | .TYPE_POINTER_SHORT
        | .TYPE_POINTER_LONG | .TYPE_POINTER_LONG_LONG | .TYPE_POINTER_INTMAX_T
        | .TYPE_POINTER_SSIZE_T | .TYPE_POINTER_PTRDIFF_T =>
          (st.out, st.writes ++ [(va.1, st.specCount + st.structCount)], va.2)
        | _ =>
          (st.out ++ fmt e.substr va.1, st.writes, va.2)
      .next ⟨st.p + cstrlen e.substr, st.specIdx + 1, st.specCount + 1, st.structCount,
        acted.1, acted.2.1, acted.2.2⟩
    else
      .next ⟨st.p + 1, st.specIdx, st.specCount, st.structCount,
        st.out ++ [getC t st.p], st.writes, st.args⟩
  else if getC t st.p = '%' ∧ getC t (st.p + 1) = '%' then
    .next ⟨st.p + 2, st.specIdx, st.specCount, st.structCount,
      st.out ++ ['%'], st.writes, st.args⟩
  else if getC t st.p = '{' ∧ getC t (st.p + 1) = '}' then
    let vd := vaDisp st.args
    match vd.1 with
    | none =>
      .next ⟨st.p + 2, st.specIdx, st.specCount, st.structCount, st.out, st.writes, vd.2⟩
    | some d =>
      match d.fdisplay_fn, d.self with
      | none, _ =>
        .next ⟨st.p + 2, st.specIdx, st.specCount, st.structCount, st.out, st.writes, vd.2⟩
      | some _, false =>
        .next ⟨st.p + 2, st.specIdx, st.specCount, st.structCount, st.out, st.writes, vd.2⟩
      | some (txt, ret), true =>
        if ret = -1 then
          .next ⟨st.p + 2, st.specIdx, st.specCount, st.structCount,
            st.out ++ txt, st.writes, vd.2⟩
        else
          .next ⟨st.p + 2, st.specIdx, st.specCount, st.structCount + 1,
            st.out ++ txt, st.writes, vd.2⟩
  else
    .next ⟨st.p + 1, st.specIdx, st.specCount, st.structCount,
      st.out ++ [getC t st.p], st.writes, st.args⟩

/-- The `display_vfprint` while-loop, fuel-indexed. -/
def vfprint_loop (fmt : Fmt) (t : List Char) (specs : List format_spec_t) :
    Nat → VState → Option VResult
  | 0, _ => none
  | f + 1, st =>
    match vfprint_step fmt t specs st with
    | .halt r => some r
    | .next st' => vfprint_loop fmt t specs f st'

/-- `display_vfprint` (display.h lines 521-669).  `file` records whether
the stream handle is non-null; `if (!format || !file) return -1`. -/
def display_vfprint (fuel : Nat) (fmt : Fmt) (file : Bool) (format : Option (List Char))
    (args : List CVal) : Option VResult :=
  match format with
  | none => some ⟨[], [], -1, args⟩
  | some t =>
    if file = false then some ⟨[], [], -1, args⟩
    else
      match find_format_specifiers fuel (some (memOf t)) with
      | none => none
      | some specs => vfprint_loop fmt t specs fuel ⟨0, 0, 0, 0, [], [], args⟩

/-- Models the text native `printf` emits for the plain directives the
concrete scenarios use: `%d` renders the integer in decimal, `%s` renders
the string argument; any other rule renders nothing (unused here).  This
models the external C library collaborator, not code of this repository. -/
def cformat : Fmt := fun f v =>
  if f = "%d".toList then
    match v with
    | .VInt n => (toString n).toList
    | _ => []
  else if f = "%s".toList then
    match v with
    | .VStr s => s
    | _ => []
  else []

/-- Memory whose allocation holds exactly the one-character template `"%"`:
address 0 is `'%'`, address 1 the NUL terminator.  Address 2 — the first
byte past the allocation — holds `junk`; everything later is NUL. -/
def memPastEnd (junk : Char) : Mem :=
  fun i => if i = 0 then '%' else if i = 2 then junk else nulChar

/-- On the memory of the template `"%"` (NUL from address 1 on), the flags
loop never exits: `strchr("-+ #0", '\0')` is non-null, so `p` keeps
advancing through NUL bytes. -/
lemma scanFlags_percent_diverges (f p : Nat) (hp : 1 ≤ p) :
    scanFlags f (memOf ['%']) p = none := by
  induction f generalizing p with
  | zero => rfl
  | succ f ih =>
    have hm : memOf ['%'] p = nulChar := by
      show (['%'] : List Char).getD p nulChar = nulChar
      exact List.getD_eq_default _ _ (by simpa using hp)
    rw [scanFlags, hm]
    rw [show cstrchr ("-+ #0".toList) nulChar = true from rfl]
    exact ih (p + 1) (Nat.le_succ_of_le hp)

/-- On the memory of the template `"%"`, the whole scan never reaches a
normal return, whatever the fuel. -/
lemma scanLoop_percent_diverges (f : Nat) : scanLoop f (memOf ['%']) 0 [] = none := by
  cases f with
  | zero => rfl
  | succ f =>
    have hpm : parseMarker f (memOf ['%']) 0 = none := by
      rw [parseMarker]
      rw [scanFlags_percent_diverges f (0 + 1) (by omega)]
      rfl
    rw [scanLoop]
    rw [show (memOf ['%'] 0 == nulChar) = false from rfl,
      show (memOf ['%'] 0 == '%') = true from rfl,
      show (memOf ['%'] (0 + 1) == '%') = false from rfl]
    simp only [Bool.false_eq_true, if_false, if_true, hpm]

/-- C1: the claim is FALSE of the code — the scanner does read past the
end of the template.  For the template `"%"` (allocation: `'%'` at
address 0, the terminator at address 1), the flags loop of
`find_format_specifiers` treats the terminator as a flag character
(`strchr("-+ #0", '\0')` is non-null) and advances past it:  two memories
that agree on the entire allocation but differ at address 2 — one byte
past the allocation — produce different scan results, and on a memory
that is NUL from the terminator on, the scan never terminates at any
fuel.  The "malformed marker" here is also not dropped: an entry is
produced from out-of-bounds bytes. -/
theorem c1_scanner_reads_past_template_end :
    (∀ i, i ≤ 1 → memPastEnd 'd' i = memPastEnd 'x' i)
    ∧ find_format_specifiers 16 (some (memPastEnd 'd'))
        ≠ find_format_specifiers 16 (some (memPastEnd 'x'))
    ∧ (∀ f, find_format_specifiers f (some (memOf ['%'])) = none) :=
  ⟨by decide, by decide, fun f => scanLoop_percent_diverges f⟩

/-- C2: rendering the template `"%d-%s {} end"` with arguments
`(5, "ok", <opaque value whose render writes "OK" and succeeds>)`
produces exactly `"5-ok OK end"` and returns 3. -/
theorem c2_concrete_render_scenario :
    display_vprint 32 cformat (some "%d-%s {} end".toList)
      [.VInt 5, .VStr "ok".toList,
        .VDisp (some ⟨some ("OK".toList, 2), none, none, true⟩)]
      = some ⟨"5-ok OK end".toList, [], 3, []⟩ := by decide

/-- C3: the claim is FALSE of the code — the scanner accepts the mixed
two-character sequences `hl` and `lh` as a length-modifier token, because
the second-character test only checks membership in `{h, l}`, not
equality with the first character.  `"%hld"` and `"%lhd"` are each
consumed as a single marker whose captured substring contains the mixed
token (resolved to `TYPE_INT` since neither matches any table row); the
same-repeated doubles behave as the claim says. -/
theorem c3_mixed_length_doubles_accepted :
    find_format_specifiers 16 (some (memOf "%hld".toList))
      = some [⟨"%hld".toList, .TYPE_INT⟩]
    ∧ find_format_specifiers 16 (some (memOf "%lhd".toList))
      = some [⟨"%lhd".toList, .TYPE_INT⟩]
    ∧ find_format_specifiers 16 (some (memOf "%hhd".toList))
      = some [⟨"%hhd".toList, .TYPE_SIGNED_INT8⟩]
    ∧ find_format_specifiers 16 (some (memOf "%lld".toList))
      = some [⟨"%lld".toList, .TYPE_LONG_LONG⟩] := by decide

/-- C6 counterexample: invoked on the null template, the scanner does not
return an empty marker sequence — it dereferences the null pointer on its
first step (`while (*p)`), so there is no normal return at all (modelled
as `none`, which differs from `some []`). -/
theorem c6_scanner_null_no_result :
    find_format_specifiers 16 none = none
    ∧ find_format_specifiers 16 none ≠ some [] := by decide

/-- C6 amended: a null template never reaches the scanner — both drivers
test `format` themselves and immediately return `-1` with nothing written,
nothing stored, and no argument consumed. -/
theorem c6_null_template_driver_fails :
    ∀ (fuel : Nat) (fmt : Fmt) (file : Bool) (args : List CVal),
      display_vprint fuel fmt none args = some ⟨[], [], -1, args⟩
      ∧ display_vfprint fuel fmt file none args = some ⟨[], [], -1, args⟩ :=
  fun _ _ _ _ => ⟨rfl, rfl⟩

/-- C4 counterexample: the claim's "nothing is emitted for it" is FALSE
for the returns-(-1) case.  The driver invokes `display_fn` first and only
then compares its return value with -1, so whatever the failing render
already wrote to the sink stays there: an opaque value whose render writes
`"X"` and returns -1, under the template `"{}"`, yields the output `"X"`
(non-empty), even though the field is skipped and the count stays 0. -/
theorem c4_failing_render_emits_text :
    display_vprint 16 (fun _ _ => []) (some "{}".toList)
      [.VDisp (some ⟨some ("X".toList, -1), none, none, true⟩)]
      = some ⟨"X".toList, [], 0, []⟩
    ∧ ("X".toList : List Char) ≠ [] := by decide

/-- C4 amended: at an opaque delimiter the driver consumes exactly one
opaque display value; if it is null, lacks the sink-matching rendering
function, or lacks its self-reference, the driver emits nothing for the
field; if the rendering function is invoked and returns -1, the driver
adds nothing beyond what that function itself already wrote to the sink.
In every such case the rendered-field count is not incremented, the call
does not fail, and the loop continues past the delimiter. -/
theorem c4_opaque_skip_amended (fmt : Fmt) (t : List Char) (specs : List format_spec_t)
    (st : VState) (od : Option display_t) (rest : List CVal)
    (hb1 : getC t st.p = '{') (hb2 : getC t (st.p + 1) = '}')
    (hargs : st.args = .VDisp od :: rest) :
    (od = none →
      vprint_step fmt t specs st =
        .next ⟨st.p + 2, st.specIdx, st.specCount, st.structCount, st.out, st.writes, rest⟩
      ∧ vfprint_step fmt t specs st =
        .next ⟨st.p + 2, st.specIdx, st.specCount, st.structCount, st.out, st.writes, rest⟩)
    ∧ (∀ d : display_t, od = some d → d.self = false →
      vprint_step fmt t specs st =
        .next ⟨st.p + 2, st.specIdx, st.specCount, st.structCount, st.out, st.writes, rest⟩
      ∧ vfprint_step fmt t specs st =
        .next ⟨st.p + 2, st.specIdx, st.specCount, st.structCount, st.out, st.writes, rest⟩)
    ∧ (∀ d : display_t, od = some d → d.display_fn = none →
      vprint_step fmt t specs st =
        .next ⟨st.p + 2, st.specIdx, st.specCount, st.structCount, st.out, st.writes, rest⟩)
    ∧ (∀ d : display_t, od = some d → d.fdisplay_fn = none →
      vfprint_step fmt t specs st =
        .next ⟨st.p + 2, st.specIdx, st.specCount, st.structCount, st.out, st.writes, rest⟩)
    ∧ (∀ (d : display_t) (txt : List Char), od = some d → d.self = true →
      d.display_fn = some (txt, -1) →
      vprint_step fmt t specs st =
        .next ⟨st.p + 2, st.specIdx, st.specCount, st.structCount,
          st.out ++ txt, st.writes, rest⟩)
    ∧ (∀ (d : display_t) (txt : List Char), od = some d → d.self = true →
      d.fdisplay_fn = some (txt, -1) →
      vfprint_step fmt t specs st =
        .next ⟨st.p + 2, st.specIdx, st.specCount, st.structCount,
          st.out ++ txt, st.writes, rest⟩) := by
  have h1 : ¬ getC t st.p = nulChar := by rw [hb1]; decide
  have h2 : ¬ (getC t st.p = '%' ∧ getC t (st.p + 1) ≠ '%') := by
    rintro ⟨hc, -⟩; rw [hb1] at hc; exact absurd hc (by decide)
  have h3 : ¬ (getC t st.p = '%' ∧ getC t (st.p + 1) = '%') := by
    rintro ⟨hc, -⟩; rw [hb1] at hc; exact absurd hc (by decide)
  have h4 : getC t st.p = '{' ∧ getC t (st.p + 1) = '}' := ⟨hb1, hb2⟩
  refine ⟨?_, ?_, ?_, ?_, ?_, ?_⟩
  · rintro rfl
    refine ⟨?_, ?_⟩
    · rw [vprint_step, if_neg h1, if_neg h2, if_neg h3, if_pos h4]
      simp only [hargs, vaDisp]
    · rw [vfprint_step, if_neg h1, if_neg h2, if_neg h3, if_pos h4]
      simp only [hargs, vaDisp]
  · rintro d rfl hself
    refine ⟨?_, ?_⟩
    · rw [vprint_step, if_neg h1, if_neg h2, if_neg h3, if_pos h4]
      cases hdf : d.display_fn <;> simp only [hargs, vaDisp, hself, hdf]
    · rw [vfprint_step, if_neg h1, if_neg h2, if_neg h3, if_pos h4]
      cases hff : d.fdisplay_fn <;> simp only [hargs, vaDisp, hself, hff]
  · rintro d rfl hdf
    rw [vprint_step, if_neg h1, if_neg h2, if_neg h3, if_pos h4]
    simp only [hargs, vaDisp, hdf]
  · rintro d rfl hff
    rw [vfprint_step, if_neg h1, if_neg h2, if_neg h3, if_pos h4]
    simp only [hargs, vaDisp, hff]
  · rintro d txt rfl hself hdf
    rw [vprint_step, if_neg h1, if_neg h2, if_neg h3, if_pos h4]
    simp only [hargs, vaDisp, hdf, hself, eq_self_iff_true, if_true]
  · rintro d txt rfl hself hff
    rw [vfprint_step, if_neg h1, if_neg h2, if_neg h3, if_pos h4]
    simp only [hargs, vaDisp, hff, hself, eq_self_iff_true, if_true]

/-- C4 witness: a concrete skipped field — the render writes `"X"`, fails
with -1, the driver keeps the text, consumes the one slot, counts
nothing, and continues at position 2. -/
theorem c4_opaque_skip_amended_witness :
    vprint_step (fun _ _ => []) "{}".toList []
        ⟨0, 0, 0, 0, [], [], [.VDisp (some ⟨some ("X".toList, -1), none, none, true⟩), .VInt 7]⟩
      = .next ⟨2, 0, 0, 0, "X".toList, [], [.VInt 7]⟩ := by
  have h := c4_opaque_skip_amended (fun _ _ => []) "{}".toList []
      ⟨0, 0, 0, 0, [], [], [.VDisp (some ⟨some ("X".toList, -1), none, none, true⟩), .VInt 7]⟩
      (some ⟨some ("X".toList, -1), none, none, true⟩) [.VInt 7]
      (by decide) (by decide) rfl
  exact h.2.2.2.2.1 _ "X".toList rfl rfl rfl

/-- The eight write-count reference types (the `%n` family): the driver
switch stores the running count through the consumed pointer for exactly
these. -/
def var_type.isRef : var_type → Bool
  | .TYPE_POINTER_INT | .TYPE_POINTER_SIGNED_INT8 | .TYPE_POINTER_SHORT
  | .TYPE_POINTER_LONG | .TYPE_POINTER_LONG_LONG | .TYPE_POINTER_INTMAX_T
  | .TYPE_POINTER_SSIZE_T | .TYPE_POINTER_PTRDIFF_T => true
  | _ => false

/-- The argument-consuming output types: the driver switch passes the
substring and one consumed argument to the native formatter for exactly
these (everything except the write-count family and `TYPE_NONE`). -/
def var_type.isOutArg : var_type → Bool
  | .TYPE_NONE => false
  | .TYPE_POINTER_INT | .TYPE_POINTER_SIGNED_INT8 | .TYPE_POINTER_SHORT
  | .TYPE_POINTER_LONG | .TYPE_POINTER_LONG_LONG | .TYPE_POINTER_INTMAX_T
  | .TYPE_POINTER_SSIZE_T | .TYPE_POINTER_PTRDIFF_T => false
  | _ => true

/-- C5: at a write-count marker (any `%n`-family entry) the driver
consumes exactly one argument slot, emits no output text, stores through
it the running `spec_count + struct_count` — the number of native plus
opaque fields rendered before the marker — and then bumps `spec_count`,
so the marker itself counts toward the returned field count; concretely,
`display_vprint` on the template `"%n"` stores 0 and returns 1. -/
theorem c5_writeback_marker (fmt : Fmt) (t : List Char) (specs : List format_spec_t)
    (st : VState) (a : CVal) (rest : List CVal)
    (h1 : getC t st.p = '%') (h2 : getC t (st.p + 1) ≠ '%')
    (h : st.specIdx < specs.length)
    (href : (specs.get ⟨st.specIdx, h⟩).type.isRef = true)
    (hargs : st.args = a :: rest) :
    vprint_step fmt t specs st =
      .next ⟨st.p + cstrlen (specs.get ⟨st.specIdx, h⟩).substr, st.specIdx + 1,
        st.specCount + 1, st.structCount, st.out,
        st.writes ++ [(a, st.specCount + st.structCount)], rest⟩
    ∧ ∀ pid : Nat, display_vprint 16 fmt (some "%n".toList) [.VPtr pid]
        = some ⟨[], [(.VPtr pid, 0)], 1, []⟩ := by
  constructor
  · have hn : ¬ getC t st.p = nulChar := by rw [h1]; decide
    have hc : getC t st.p = '%' ∧ getC t (st.p + 1) ≠ '%' := ⟨h1, h2⟩
    rw [vprint_step, if_neg hn, if_pos hc, dif_pos h]
    rcases hspec : specs.get ⟨st.specIdx, h⟩ with ⟨sub, ty⟩
    rw [hspec] at href
    cases ty <;>
      simp only [var_type.isRef, Bool.false_eq_true] at href <;>
      simp only [hargs, vaArg]
  · intro pid
    rfl

/-- C5 witness: the `%n` step at the initial state of template `"%n"`. -/
theorem c5_writeback_marker_witness :
    vprint_step cformat "%n".toList [⟨"%n".toList, .TYPE_POINTER_INT⟩]
        ⟨0, 0, 0, 0, [], [], [.VPtr 3]⟩
      = .next ⟨2, 1, 1, 0, [], [(.VPtr 3, 0)], []⟩ := by
  have h := c5_writeback_marker cformat "%n".toList [⟨"%n".toList, .TYPE_POINTER_INT⟩]
      ⟨0, 0, 0, 0, [], [], [.VPtr 3]⟩ (.VPtr 3) []
      (by decide) (by decide) (by decide) (by decide) rfl
  exact h.1

/-- C8: at any argument-consuming native entry the driver takes exactly
one slot from the cursor and passes the entry's captured substring
verbatim to the native formatter with that single argument; for the
indirect-width and indirect-precision markers the captured substring
still contains the `'*'`, and the end-to-end runs on `"%*d"`, `"%.*f"`
and `"%*.*s"` each consume exactly one slot (the leftover cursor keeps
the following slots), never the extra width/precision integer the native
rule itself would read. -/
theorem c8_star_marker_single_argument :
    (∀ (fmt : Fmt) (t : List Char) (specs : List format_spec_t) (st : VState)
        (a : CVal) (rest : List CVal) (h : st.specIdx < specs.length),
      getC t st.p = '%' → getC t (st.p + 1) ≠ '%' →
      (specs.get ⟨st.specIdx, h⟩).type.isOutArg = true →
      st.args = a :: rest →
      vprint_step fmt t specs st =
        .next ⟨st.p + cstrlen (specs.get ⟨st.specIdx, h⟩).substr, st.specIdx + 1,
          st.specCount + 1, st.structCount,
          st.out ++ fmt (specs.get ⟨st.specIdx, h⟩).substr a, st.writes, rest⟩)
    ∧ (∀ (fmt : Fmt) (a b : CVal),
        display_vprint 16 fmt (some "%*d".toList) [a, b]
          = some ⟨fmt "%*d".toList a, [], 1, [b]⟩)
    ∧ (∀ (fmt : Fmt) (a b : CVal),
        display_vprint 16 fmt (some "%.*f".toList) [a, b]
          = some ⟨fmt "%.*f".toList a, [], 1, [b]⟩)
    ∧ (∀ (fmt : Fmt) (a b c : CVal),
        display_vprint 16 fmt (some "%*.*s".toList) [a, b, c]
          = some ⟨fmt "%*.*s".toList a, [], 1, [b, c]⟩) := by
  refine ⟨?_, fun _ _ _ => rfl, fun _ _ _ => rfl, fun _ _ _ _ => rfl⟩
  intro fmt t specs st a rest h h1 h2 harg hargs
  have hn : ¬ getC t st.p = nulChar := by rw [h1]; decide
  have hc : getC t st.p = '%' ∧ getC t (st.p + 1) ≠ '%' := ⟨h1, h2⟩
  rw [vprint_step, if_neg hn, if_pos hc, dif_pos h]
  rcases hspec : specs.get ⟨st.specIdx, h⟩ with ⟨sub, ty⟩
  rw [hspec] at harg
  cases ty <;>
    simp only [var_type.isOutArg, Bool.false_eq_true] at harg <;>
    simp only [hargs, vaArg]

/-- C8 witness: the step at the `"%*d"` entry consumes exactly the head
slot and passes the star-bearing substring to the formatter. -/
theorem c8_star_marker_single_argument_witness :
    vprint_step cformat "%*d".toList [⟨"%*d".toList, .TYPE_INT⟩]
        ⟨0, 0, 0, 0, [], [], [.VInt 7, .VInt 9]⟩
      = .next ⟨3, 1, 1, 0, cformat "%*d".toList (.VInt 7), [], [.VInt 9]⟩ :=
  c8_star_marker_single_argument.1 cformat "%*d".toList [⟨"%*d".toList, .TYPE_INT⟩]
    ⟨0, 0, 0, 0, [], [], [.VInt 7, .VInt 9]⟩ (.VInt 7) [.VInt 9]
    (by decide) (by decide) (by decide) (by decide) rfl

/-- C9: the driver pairs scanner entries with raw `'%'` occurrences, not
with template positions.  In `"%qw %5d"` the scanner drops the malformed
`"%q"` and records only `⟨"%5d", TYPE_INT⟩`; the driver then consumes that
entry — formatting the first cursor slot with `"%5d"` — at the malformed
marker's position, advances by `strlen("%5d") = 3` (swallowing the `'w'`),
and when it later reaches the real `"%5d"` the marker list is exhausted,
so that marker degrades to the literal-`'%'` fallback and is echoed
verbatim.  Exactly one slot is consumed and the returned count is 1. -/
theorem c9_malformed_marker_desync :
    ∀ (fmt : Fmt) (a b : CVal),
      display_vprint 32 fmt (some "%qw %5d".toList) [a, b]
        = some ⟨fmt "%5d".toList a ++ " %5d".toList, [], 1, [b]⟩ := by
  intro fmt a b
  calc display_vprint 32 fmt (some "%qw %5d".toList) [a, b]
      = some ⟨((((fmt "%5d".toList a ++ [' ']) ++ ['%']) ++ ['5']) ++ ['d']),
          [], 1, [b]⟩ := rfl
    _ = some ⟨fmt "%5d".toList a ++ " %5d".toList, [], 1, [b]⟩ := by
        simp [List.append_assoc]

/-- The tail of the cursor after a native `va_arg` read. -/
lemma vaArg_snd (l : List CVal) : (vaArg l).2 = l.tail := by
  cases l <;> rfl

/-- The tail of the cursor after a display-pointer `va_arg` read. -/
lemma vaDisp_snd (l : List CVal) : (vaDisp l).2 = l.tail := by
  cases l with
  | nil => rfl
  | cons a r => cases a <;> rfl

/-- Under the capability hypothesis on the head of the cursor, one
`display_vprint` loop iteration and one `display_vfprint` loop iteration
coincide: every branch is the same code except the opaque-display branch,
which consults `display_fn` on one side and `fdisplay_fn` on the other. -/
lemma step_agree (fmt : Fmt) (t : List Char) (specs : List format_spec_t) (st : VState)
    (h : ∀ d : display_t, CVal.VDisp (some d) ∈ st.args → d.display_fn = d.fdisplay_fn) :
    vprint_step fmt t specs st = vfprint_step fmt t specs st := by
  by_cases h1 : getC t st.p = nulChar
  · rw [vprint_step, vfprint_step, if_pos h1, if_pos h1]
  · by_cases h2 : getC t st.p = '%' ∧ getC t (st.p + 1) ≠ '%'
    · rw [vprint_step, vfprint_step, if_neg h1, if_neg h1, if_pos h2, if_pos h2]
    · by_cases h3 : getC t st.p = '%' ∧ getC t (st.p + 1) = '%'
      · rw [vprint_step, vfprint_step, if_neg h1, if_neg h1, if_neg h2, if_neg h2,
          if_pos h3, if_pos h3]
      · by_cases h4 : getC t st.p = '{' ∧ getC t (st.p + 1) = '}'
        · rw [vprint_step, vfprint_step, if_neg h1, if_neg h1, if_neg h2, if_neg h2,
            if_neg h3, if_neg h3, if_pos h4, if_pos h4]
          cases hl : st.args with
          | nil => rfl
          | cons a r =>
            cases a with
            | VDisp od =>
              cases od with
              | none => simp only [hl, vaDisp]
              | some d =>
                have hd := h d (by rw [hl]; exact List.mem_cons_self _ _)
                simp only [hl, vaDisp, hd]
            | VInt n => simp only [hl, vaDisp]
            | VStr s => simp only [hl, vaDisp]
            | VPtr pid => simp only [hl, vaDisp]
        · rw [vprint_step, vfprint_step, if_neg h1, if_neg h1, if_neg h2, if_neg h2,
            if_neg h3, if_neg h3, if_neg h4, if_neg h4]

/-- Every argument slot still present after a loop iteration was present
before it: an iteration consumes from the front of the cursor. -/
lemma step_args_mem (fmt : Fmt) (t : List Char) (specs : List format_spec_t)
    (st st' : VState) (hstep : vprint_step fmt t specs st = .next st') :
    ∀ x, x ∈ st'.args → x ∈ st.args := by
  intro x hx
  by_cases h1 : getC t st.p = nulChar
  · rw [vprint_step, if_pos h1] at hstep
    exact absurd hstep (by simp)
  · by_cases h2 : getC t st.p = '%' ∧ getC t (st.p + 1) ≠ '%'
    · rw [vprint_step, if_neg h1, if_pos h2] at hstep
      by_cases h : st.specIdx < specs.length
      · rw [dif_pos h] at hstep
        rcases hspec : specs.get ⟨st.specIdx, h⟩ with ⟨sub, ty⟩
        rw [hspec] at hstep
        cases ty <;>
          · dsimp only at hstep
            cases hstep
            first
            | exact hx
            | · rw [vaArg_snd] at hx
                exact List.mem_of_mem_tail hx
      · rw [dif_neg h] at hstep
        cases hstep
        exact hx
    · by_cases h3 : getC t st.p = '%' ∧ getC t (st.p + 1) = '%'
      · rw [vprint_step, if_neg h1, if_neg h2, if_pos h3] at hstep
        cases hstep
        exact hx
      · by_cases h4 : getC t st.p = '{' ∧ getC t (st.p + 1) = '}'
        · rw [vprint_step, if_neg h1, if_neg h2, if_neg h3, if_pos h4] at hstep
          rcases hvd : vaDisp st.args with ⟨od, r⟩
          have hr : r = st.args.tail := by rw [← vaDisp_snd, hvd]
          rw [hvd] at hstep
          cases od with
          | none =>
            dsimp only at hstep
            cases hstep
            rw [hr] at hx
            exact List.mem_of_mem_tail hx
          | some d =>
            dsimp only at hstep
            rcases hdf : d.display_fn with _ | ⟨txt, ret⟩
            · rw [hdf] at hstep
              dsimp only at hstep
              cases hstep
              rw [hr] at hx
              exact List.mem_of_mem_tail hx
            · rw [hdf] at hstep
              cases hself : d.self
              · rw [hself] at hstep
                dsimp only at hstep
                cases hstep
                rw [hr] at hx
                exact List.mem_of_mem_tail hx
              · rw [hself] at hstep
                dsimp only at hstep
                by_cases hret : ret = -1
                · rw [if_pos hret] at hstep
                  cases hstep
                  rw [hr] at hx
                  exact List.mem_of_mem_tail hx
                · rw [if_neg hret] at hstep
                  cases hstep
                  rw [hr] at hx
                  exact List.mem_of_mem_tail hx
        · rw [vprint_step, if_neg h1, if_neg h2, if_neg h3, if_neg h4] at hstep
          cases hstep
          exact hx

/-- The two driver loops agree at every fuel, as long as every opaque
display value still on the cursor has equal `display_fn` and
`fdisplay_fn` behaviour. -/
lemma loop_agree (fmt : Fmt) (t : List Char) (specs : List format_spec_t) :
    ∀ (fuel : Nat) (st : VState),
      (∀ d : display_t, CVal.VDisp (some d) ∈ st.args → d.display_fn = d.fdisplay_fn) →
      vprint_loop fmt t specs fuel st = vfprint_loop fmt t specs fuel st := by
  intro fuel
  induction fuel with
  | zero => intro st h; rfl
  | succ f ih =>
    intro st h
    rw [vprint_loop, vfprint_loop, ← step_agree fmt t specs st h]
    cases hstep : vprint_step fmt t specs st with
    | halt r => rfl
    | next st' =>
      exact ih st' (fun d hd => h d (step_args_mem fmt t specs st st' hstep _ hd))

/-- C10: `display_vprint` and `display_vfprint` implement the same
rendering algorithm over their two sinks.  For every fuel, template and
argument cursor in which each opaque display value's `display_fn` and
`fdisplay_fn` are both present and produce the same text and the same
return value, the two drivers produce identical results: same sink text,
same writebacks, same returned count, same leftover cursor. -/
theorem c10_vprint_vfprint_agree (fuel : Nat) (fmt : Fmt) (t : List Char)
    (args : List CVal)
    (h : ∀ d : display_t, CVal.VDisp (some d) ∈ args →
      ∃ o : List Char × Int, d.display_fn = some o ∧ d.fdisplay_fn = some o) :
    display_vprint fuel fmt (some t) args = display_vfprint fuel fmt true (some t) args := by
  have h' : ∀ d : display_t, CVal.VDisp (some d) ∈ args → d.display_fn = d.fdisplay_fn := by
    intro d hd
    obtain ⟨o, h1, h2⟩ := h d hd
    rw [h1, h2]
  have hL : display_vprint fuel fmt (some t) args =
      (match find_format_specifiers fuel (some (memOf t)) with
      | none => none
      | some specs => vprint_loop fmt t specs fuel ⟨0, 0, 0, 0, [], [], args⟩) := rfl
  have hR : display_vfprint fuel fmt true (some t) args =
      (match find_format_specifiers fuel (some (memOf t)) with
      | none => none
      | some specs => vfprint_loop fmt t specs fuel ⟨0, 0, 0, 0, [], [], args⟩) := rfl
  rw [hL, hR]
  cases hs : find_format_specifiers fuel (some (memOf t)) with
  | none => rfl
  | some specs => exact loop_agree fmt t specs fuel ⟨0, 0, 0, 0, [], [], args⟩ h'

/-- C10 witness: a concrete template with one native marker and one
opaque field whose two capabilities behave identically. -/
theorem c10_vprint_vfprint_agree_witness :
    display_vprint 32 cformat (some "%d {}".toList)
        [.VInt 4, .VDisp (some ⟨some ("OK".toList, 2), some ("OK".toList, 2), none, true⟩)]
      = display_vfprint 32 cformat true (some "%d {}".toList)
        [.VInt 4, .VDisp (some ⟨some ("OK".toList, 2), some ("OK".toList, 2), none, true⟩)] := by
  apply c10_vprint_vfprint_agree
  intro d hd
  simp at hd
  subst hd
  exact ⟨("OK".toList, 2), rfl, rfl⟩

/-- C1 witness: the two junk memories agree at address 0 (and likewise
inside the rest of the allocation). -/
theorem c1_scanner_reads_past_template_end_witness :
    memPastEnd 'd' 0 = memPastEnd 'x' 0 :=
  c1_scanner_reads_past_template_end.1 0 (by decide)
